import Mathlib

/-!
Verification development for the text-generation dispatch and usage-accounting core of the
ALwrity backend, a shallow embedding of
`backend/services/llm_providers/main_text_generation.py` (function `llm_text_gen`).

Modelling conventions:
* Word counts stand in for `len(text.split())`; the float scaling `int(words * 1.3)` is
  modelled as `words * 13 / 10` over `Nat` (floor division), and `int(x * 1.5)` as
  `x * 3 / 2`; these agree with the Python float arithmetic for all realistic magnitudes.
* The durable `usage_summaries` row is a structure of per-provider counters indexed by the
  `APIProvider` enum (the column whitelist `valid_providers` of the source: gemini, openai,
  anthropic, mistral, openrouter).
* External collaborators that are not part of this repository snapshot
  (`PricingService.check_usage_limits`, `calculate_api_cost`) are modelled: the admission
  check from the words of the specification, the cost calculator as an abstract function
  parameter.
* Provider backends are modelled by an oracle `callOk : Provider → Bool` (true means the
  call returned a truthy response; false means it raised) together with the word count of
  the returned text. An exception anywhere in the accounting block is modelled by the
  `fault : Bool` switch: the source catches such exceptions, rolls the transaction back and
  still returns the response, so a fault leaves the ledger unchanged.
-/

namespace ALwrity

/-- The three dispatchable backends of `llm_text_gen` (strings "google", "huggingface",
"openrouter" in the source). -/
inductive Provider where
  | google
  | huggingface
  | openrouter
deriving DecidableEq, Repr

/-- The `APIProvider` enum members that can appear as `usage_summaries` column prefixes in
this code path (the `valid_providers` whitelist of the source). There is no
huggingface-named member: huggingface traffic is mapped onto `mistral`. -/
inductive APIProvider where
  | gemini
  | openai
  | anthropic
  | mistral
  | openrouter
deriving DecidableEq, Repr

/-- Lines 119..127: map the dispatch provider to the `APIProvider` enum used for quota
checking and accounting (huggingface maps to MISTRAL). -/
def providerEnum : Provider → APIProvider
  | .google => .gemini
  | .huggingface => .mistral
  | .openrouter => .openrouter

/-- Lines 119..127: the `actual_provider_name` kept for logs and for the denial payload. -/
def actualProviderName : Provider → String
  | .google => "gemini"
  | .huggingface => "huggingface"
  | .openrouter => "openrouter"

/-- `int(len(text.split()) * 1.3)` of the source (lines 150, 298, 299, 722, 723), with the
word count as input and the float literal 1.3 modelled as the rational 13/10. -/
def estTokens (words : Nat) : Nat := words * 13 / 10

/-- The constant `max_tokens = 4000` of line 44. -/
def maxTokensDefault : Nat := 4000

/-- Lines 150..158: the pre-flight worst-case token total. `if max_tokens:` is Python
truthiness, so the `int(input_tokens * 1.5)` alternative is reached only when the
configured maximum output tokens is zero. -/
def worstCaseTotal (inputTokens maxTokens : Nat) : Nat :=
  inputTokens + (if maxTokens ≠ 0 then maxTokens else inputTokens * 3 / 2)

/-- The worst-case formula as the words of the specification state it (for comparison with
`worstCaseTotal`): input estimate plus the larger of the configured maximum output tokens
and 1.5 times the input estimate. -/
def worstCaseTotalSpec (inputTokens maxTokens : Nat) : Nat :=
  inputTokens + max maxTokens (inputTokens * 3 / 2)

/-- One `usage_summaries` row for a fixed (user, billing period): per-provider call, token
and cost counters plus the aggregate totals. Cost is kept in abstract integral money
units. -/
structure UsageSummary where
  calls : APIProvider → Nat
  tokens : APIProvider → Nat
  cost : APIProvider → Nat
  total_calls : Nat
  total_tokens : Nat
  total_cost : Nat

/-- A freshly created row: all counters zero (lines 393..402). -/
def zeroSummary : UsageSummary :=
  { calls := fun _ => 0, tokens := fun _ => 0, cost := fun _ => 0,
    total_calls := 0, total_tokens := 0, total_cost := 0 }

/-- Line 436: the providers whose token counter is written in the PRIMARY accounting path.
`APIProvider.openrouter` is absent from this list in the source. -/
def primaryTokenUpdateList : List APIProvider :=
  [.gemini, .openai, .anthropic, .mistral]

/-- Line 805: the providers whose token counter is written in the FALLBACK accounting
path; this list does include `APIProvider.openrouter`. -/
def fallbackTokenUpdateList : List APIProvider :=
  [.gemini, .openai, .anthropic, .mistral, .openrouter]

/-- The post-call accounting block (primary path lines 296..531, fallback path lines
720..868), as a pure update of the row. Steps, in source order:
* `tokens_total = tokens_input + tokens_output`;
* `new_calls = current_calls_before + 1` written to the provider call column;
* when the provider is in the token-update list: `projected = current_tokens_before +
  tokens_total`; if a ceiling is configured (`token_limit > 0`) and `projected` exceeds
  it, the written token value is clamped to exactly the ceiling and `tokens_total` is
  redefined to `token_limit - current_tokens_before` floored at zero (Nat subtraction);
  otherwise the projected value is written and `tokens_total` is kept;
* tracked input/output split: `tracked_input = min(tokens_input, tokens_total)`,
  `tracked_output = max(tokens_total - tracked_input, 0)`;
* the cost for the tracked split is added to the provider cost column and to
  `total_cost` when positive;
* `total_calls` gains one and `total_tokens` gains the (possibly redefined)
  `tokens_total`. -/
def trackUsage (tokenList : List APIProvider) (costFn : APIProvider → Nat → Nat → Nat)
    (tokenLimit : Nat) (p : APIProvider) (tokensInput tokensOutput : Nat)
    (s : UsageSummary) : UsageSummary :=
  let tokensTotal := tokensInput + tokensOutput
  let currentTokensBefore := s.tokens p
  let projected := currentTokensBefore + tokensTotal
  let clamped : Bool :=
    decide (p ∈ tokenList) && decide (0 < tokenLimit) && decide (tokenLimit < projected)
  let newTokens := if clamped then tokenLimit else projected
  let tokensTotal2 := if clamped then tokenLimit - currentTokensBefore else tokensTotal
  let trackedInput := min tokensInput tokensTotal2
  let trackedOutput := tokensTotal2 - trackedInput
  let costTotal := costFn p trackedInput trackedOutput
  { calls := fun q => if q = p then s.calls p + 1 else s.calls q
    tokens := fun q => if q = p ∧ p ∈ tokenList then newTokens else s.tokens q
    cost := fun q => if q = p ∧ 0 < costTotal then s.cost q + costTotal else s.cost q
    total_calls := s.total_calls + 1
    total_tokens := s.total_tokens + tokensTotal2
    total_cost := if 0 < costTotal then s.total_cost + costTotal else s.total_cost }

/-- The primary-path accounting (token-update list of line 436). -/
def trackUsagePrimary : (APIProvider → Nat → Nat → Nat) → Nat → APIProvider → Nat → Nat →
    UsageSummary → UsageSummary :=
  trackUsage primaryTokenUpdateList

/-- The fallback-path accounting (token-update list of line 805). -/
def trackUsageFallback : (APIProvider → Nat → Nat → Nat) → Nat → APIProvider → Nat → Nat →
    UsageSummary → UsageSummary :=
  trackUsage fallbackTokenUpdateList

/-- A sequence of recorded calls for one provider, folded over the row. -/
def recordCalls (tokenList : List APIProvider) (costFn : APIProvider → Nat → Nat → Nat)
    (tokenLimit : Nat) (p : APIProvider) (us : List (Nat × Nat)) (s : UsageSummary) :
    UsageSummary :=
  us.foldl (fun acc u => trackUsage tokenList costFn tokenLimit p u.1 u.2 acc) s

/-- Lines 71..79: the credentialed providers, appended in the fixed source order google,
huggingface, openrouter. -/
def availableProviders (hasGoogle hasHF hasOR : Bool) : List Provider :=
  (if hasGoogle then [Provider.google] else []) ++
    (if hasHF then [Provider.huggingface] else []) ++
    (if hasOR then [Provider.openrouter] else [])

/-- Lines 82..110: the fixed-priority selection google, openrouter, huggingface over the
credentialed providers. -/
def prioritySelect (avail : List Provider) : Option Provider :=
  if Provider.google ∈ avail then some .google
  else if Provider.openrouter ∈ avail then some .openrouter
  else if Provider.huggingface ∈ avail then some .huggingface
  else none

/-- Lines 51..110: provider selection. An explicit environment override that names a
credentialed provider wins; an override naming an uncredentialed provider (and an
unrecognized override string, which the source leaves at the default google) falls back to
the priority selection; `none` means no credentialed provider exists (the source raises a
configuration RuntimeError in that case). -/
def chooseProvider (envProvider : Option Provider) (avail : List Provider) :
    Option Provider :=
  match envProvider with
  | none => prioritySelect avail
  | some p => if p ∈ avail then some p else prioritySelect avail

/-- Lines 631..636: after a primary failure, the single fallback candidate: the head of
the fixed priority list google, openrouter, huggingface filtered to credentialed providers
other than the one that failed. -/
def fallbackChoice (avail : List Provider) (failed : Provider) : Option Provider :=
  ([Provider.google, Provider.openrouter, Provider.huggingface].filter
    (fun q => decide (q ∈ avail) && decide (q ≠ failed))).head?

/-- The usage snapshot carried inside a denial payload. -/
structure UsageInfo where
  currentTokens : Nat
  tokenCeiling : Nat
  currentCalls : Nat
  callCeiling : Nat
deriving DecidableEq, Repr

/-- Modelled from the spec: `PricingService.check_usage_limits` lives in
`services/subscription`, which is not part of this repository snapshot; section 4.2 of the
specification defines it: deny when the worst-case total would exceed the token ceiling
(ceiling > 0) or the next call would exceed the call-count ceiling, otherwise admit;
return the admission flag with a usage snapshot. -/
def check_usage_limits (tokenLimit callLimit usedTokens usedCalls tokensRequested : Nat) :
    Bool × UsageInfo :=
  (!(decide (0 < tokenLimit) && decide (tokenLimit < usedTokens + tokensRequested)
      || decide (0 < callLimit) && decide (callLimit < usedCalls + 1)),
    ⟨usedTokens, tokenLimit, usedCalls, callLimit⟩)

/-- Lines 171..176: the structured detail of a 429 denial: message, provider (the actual
provider name string), and the usage snapshot. -/
structure ErrorDetail where
  message : String
  provider : String
  usage_info : UsageInfo
deriving DecidableEq, Repr

/-- The observable outcome of one `llm_text_gen` request. A success carries the provider
actually used and the word count of its response; the three failure kinds are distinct
constructors, so a quota denial is distinguishable from a configuration error and from the
all-providers-failed hard failure. -/
inductive GenResult where
  | success (provider : Provider) (respWords : Nat)
  | configError (message : String)
  | quotaDenied (detail : ErrorDetail)
  | allProvidersFailed
deriving DecidableEq, Repr

/-- The inputs of one request: which providers hold credentials, the environment override,
whether a user identity was supplied, the prompt word count, the configured per-provider
ceilings, the backend oracles and the cost calculator. -/
structure GenEnv where
  hasGoogle : Bool
  hasHF : Bool
  hasOR : Bool
  envProvider : Option Provider
  hasUserId : Bool
  promptWords : Nat
  tokenLimit : APIProvider → Nat
  callLimit : APIProvider → Nat
  callOk : Provider → Bool
  respWords : Provider → Nat
  costFn : APIProvider → Nat → Nat → Nat

/-- What one run leaves behind: the result, the list of provider backends actually
invoked (in order), and the ledger row after the run. -/
structure RunOutcome where
  result : GenResult
  invoked : List Provider
  ledger : UsageSummary

def msgNoKeys : String := "No LLM API keys configured"

def msgNoUser : String := "user_id is required for subscription checking"

def msgLimitExceeded : String := "Subscription limit exceeded"

/-- The pre-flight admission check of lines 147..177 for the enum provider `pe`: reads the
latest committed counters of the row and checks the worst-case total (input estimate plus
the constant `max_tokens = 4000`) against the ceilings. -/
def preflight (env : GenEnv) (s : UsageSummary) (pe : APIProvider) : Bool × UsageInfo :=
  check_usage_limits (env.tokenLimit pe) (env.callLimit pe) (s.tokens pe) (s.calls pe)
    (worstCaseTotal (estTokens env.promptWords) maxTokensDefault)

/-- The accounting block with its surrounding exception handler: a fault anywhere in the
block is caught, the transaction rolled back, and the response still returned, so a fault
leaves the row unchanged (primary path lines 618..625, fallback path lines 915..921). -/
def trackOrFault (fault : Bool) (f : UsageSummary → UsageSummary) (s : UsageSummary) :
    UsageSummary :=
  if fault then s else f s

/-- Shallow embedding of `llm_text_gen` (lines 20..933) over one ledger row `s`:
* provider selection (configuration error when no provider is credentialed);
* the user-identity requirement (configuration error when absent), checked before any
  ledger or provider work;
* the pre-flight admission check for the selected provider enum; a denial returns the
  structured payload with zero provider invocations and the row untouched;
* the primary backend call; on success the primary-path accounting runs (unless it
  faults), and the response is returned either way;
* on primary failure, the single fallback candidate is tried once; on its success the
  fallback-path accounting runs (unless it faults); if no candidate exists or the
  candidate also fails, the run ends with the all-providers-failed error. -/
def llm_text_gen (env : GenEnv) (fault : Bool) (s : UsageSummary) : RunOutcome :=
  let avail := availableProviders env.hasGoogle env.hasHF env.hasOR
  (chooseProvider env.envProvider avail).elim
    ⟨.configError msgNoKeys, [], s⟩
    (fun gp =>
      if env.hasUserId = false then
        ⟨.configError msgNoUser, [], s⟩
      else
        let pe := providerEnum gp
        if (preflight env s pe).1 = false then
          ⟨.quotaDenied ⟨msgLimitExceeded, actualProviderName gp, (preflight env s pe).2⟩,
            [], s⟩
        else
          if env.callOk gp = true then
            ⟨.success gp (env.respWords gp), [gp],
              trackOrFault fault
                (trackUsagePrimary env.costFn (env.tokenLimit pe) pe
                  (estTokens env.promptWords) (estTokens (env.respWords gp))) s⟩
          else
            (fallbackChoice avail gp).elim
              ⟨.allProvidersFailed, [gp], s⟩
              (fun fb =>
                if env.callOk fb = true then
                  ⟨.success fb (env.respWords fb), [gp, fb],
                    trackOrFault fault
                      (trackUsageFallback env.costFn (env.tokenLimit (providerEnum fb))
                        (providerEnum fb) (estTokens env.promptWords)
                        (estTokens (env.respWords fb))) s⟩
                else
                  ⟨.allProvidersFailed, [gp, fb], s⟩))

/-- A cost calculator returning zero, for concrete evaluations. -/
def costFn0 : APIProvider → Nat → Nat → Nat := fun _ _ _ => 0

/-- A row with 980 mistral tokens already used this period. -/
def s980 : UsageSummary :=
  { calls := fun _ => 0,
    tokens := fun q => if q = APIProvider.mistral then 980 else 0,
    cost := fun _ => 0, total_calls := 12, total_tokens := 980, total_cost := 0 }

/-- A row with 980 openrouter tokens already used this period. -/
def sOR980 : UsageSummary :=
  { calls := fun _ => 0,
    tokens := fun q => if q = APIProvider.openrouter then 980 else 0,
    cost := fun _ => 0, total_calls := 12, total_tokens := 980, total_cost := 0 }

/-- No provider holds credentials. -/
def envNoKeys : GenEnv :=
  { hasGoogle := false, hasHF := false, hasOR := false, envProvider := none,
    hasUserId := true, promptWords := 10, tokenLimit := fun _ => 0,
    callLimit := fun _ => 0, callOk := fun _ => true, respWords := fun _ => 0,
    costFn := fun _ _ _ => 0 }

/-- Google credentialed, gemini token ceiling 1000: the worst-case estimate 4000 is
denied. -/
def envDeny : GenEnv :=
  { hasGoogle := true, hasHF := false, hasOR := false, envProvider := none,
    hasUserId := true, promptWords := 0, tokenLimit := fun _ => 1000,
    callLimit := fun _ => 0, callOk := fun _ => true, respWords := fun _ => 0,
    costFn := fun _ _ _ => 0 }

/-- Google and openrouter credentialed, both backends fail. -/
def envBothFail : GenEnv :=
  { hasGoogle := true, hasHF := false, hasOR := true, envProvider := none,
    hasUserId := true, promptWords := 10, tokenLimit := fun _ => 0,
    callLimit := fun _ => 0, callOk := fun _ => false, respWords := fun _ => 0,
    costFn := fun _ _ _ => 0 }

/-- Google and openrouter credentialed, google (the primary) fails, openrouter
succeeds. -/
def envFallbackOk : GenEnv :=
  { hasGoogle := true, hasHF := false, hasOR := true, envProvider := none,
    hasUserId := true, promptWords := 10, tokenLimit := fun _ => 0,
    callLimit := fun _ => 0, callOk := fun p => decide (p = Provider.openrouter),
    respWords := fun _ => 20, costFn := fun _ _ _ => 0 }

/-- Only huggingface credentialed; its call succeeds with a 30-word response. -/
def envHF : GenEnv :=
  { hasGoogle := false, hasHF := true, hasOR := false, envProvider := none,
    hasUserId := true, promptWords := 10, tokenLimit := fun _ => 0,
    callLimit := fun _ => 0, callOk := fun _ => true, respWords := fun _ => 30,
    costFn := fun _ _ _ => 0 }

/-- The provider token counter written by one accounting step, for a provider in the
token-update list: the projected value, clamped at the ceiling when a ceiling is
configured and the projection exceeds it. -/
theorem trackUsage_tokens_self (tokenList : List APIProvider)
    (costFn : APIProvider → Nat → Nat → Nat) (tokenLimit : Nat) (p : APIProvider)
    (tin tout : Nat) (s : UsageSummary) (hp : p ∈ tokenList) :
    (trackUsage tokenList costFn tokenLimit p tin tout s).tokens p =
      if 0 < tokenLimit ∧ tokenLimit < s.tokens p + (tin + tout) then tokenLimit
      else s.tokens p + (tin + tout) := by
  by_cases h1 : 0 < tokenLimit
  · by_cases h2 : tokenLimit < s.tokens p + (tin + tout)
    · simp [trackUsage, hp, h1, h2]
    · simp [trackUsage, hp, h1, h2]
  · simp [trackUsage, hp, h1]

/-- With a configured ceiling, one accounting step writes at most the ceiling. -/
theorem trackUsage_tokens_le (tokenList : List APIProvider)
    (costFn : APIProvider → Nat → Nat → Nat) (tokenLimit : Nat) (p : APIProvider)
    (tin tout : Nat) (s : UsageSummary) (hl : 0 < tokenLimit) (hp : p ∈ tokenList) :
    (trackUsage tokenList costFn tokenLimit p tin tout s).tokens p ≤ tokenLimit := by
  rw [trackUsage_tokens_self tokenList costFn tokenLimit p tin tout s hp]
  split
  · exact le_rfl
  · next h => omega

/-- One accounting step leaves every column of every other provider unchanged. -/
theorem trackUsage_frame (tokenList : List APIProvider)
    (costFn : APIProvider → Nat → Nat → Nat) (tokenLimit : Nat) (p : APIProvider)
    (tin tout : Nat) (s : UsageSummary) (q : APIProvider) (hq : q ≠ p) :
    (trackUsage tokenList costFn tokenLimit p tin tout s).calls q = s.calls q ∧
    (trackUsage tokenList costFn tokenLimit p tin tout s).tokens q = s.tokens q ∧
    (trackUsage tokenList costFn tokenLimit p tin tout s).cost q = s.cost q := by
  simp [trackUsage, hq]

/-- With a configured ceiling, any nonempty sequence of recorded calls ends below the
ceiling. -/
theorem recordCalls_tokens_le (tokenList : List APIProvider)
    (costFn : APIProvider → Nat → Nat → Nat) (tokenLimit : Nat) (p : APIProvider)
    (hl : 0 < tokenLimit) (hp : p ∈ tokenList) :
    ∀ us : List (Nat × Nat), us ≠ [] → ∀ s : UsageSummary,
      (recordCalls tokenList costFn tokenLimit p us s).tokens p ≤ tokenLimit := by
  intro us
  induction us with
  | nil => intro h; exact absurd rfl h
  | cons c cs ih =>
    intro _ s
    cases cs with
    | nil =>
      simpa [recordCalls] using
        trackUsage_tokens_le tokenList costFn tokenLimit p c.1 c.2 s hl hp
    | cons d ds =>
      simpa [recordCalls] using
        ih (by simp) (trackUsage tokenList costFn tokenLimit p c.1 c.2 s)

/-- A chosen fallback is credentialed and differs from the failed provider. -/
theorem fallbackChoice_mem (avail : List Provider) (failed fb : Provider)
    (h : fallbackChoice avail failed = some fb) : fb ∈ avail ∧ fb ≠ failed := by
  unfold fallbackChoice at h
  rcases hl : ([Provider.google, Provider.openrouter, Provider.huggingface].filter
      (fun q => decide (q ∈ avail) && decide (q ≠ failed))) with _ | ⟨a, t⟩
  · rw [hl] at h; exact absurd h (by simp)
  · rw [hl] at h
    simp only [List.head?] at h
    injection h with h
    have hmem : a ∈ ([Provider.google, Provider.openrouter, Provider.huggingface].filter
        (fun q => decide (q ∈ avail) && decide (q ≠ failed))) := by
      rw [hl]; exact List.mem_cons_self _ _
    have h2 := List.mem_filter.mp hmem
    rw [h] at h2
    simpa using h2.2

/-- The enum mapping is injective: distinct dispatch providers account on distinct
columns. -/
theorem providerEnum_injective (a b : Provider) (h : providerEnum a = providerEnum b) :
    a = b := by
  cases a <;> cases b <;> simp_all [providerEnum]

/-- With no credentialed provider, selection yields no provider. -/
theorem chooseProvider_nil (envProvider : Option Provider) :
    chooseProvider envProvider [] = none := by
  cases envProvider <;> simp [chooseProvider, prioritySelect]

/-- Supporting result: for every provider that the respective accounting path does write
(its token-update list), with a configured ceiling (> 0) the stored counter after the
update never exceeds the ceiling, the written value is exactly the ceiling whenever the
projection old tokens + actual total would exceed it, and the bound persists along any
nonempty sequence of recorded calls. The primary-path list omits openrouter, so for
openrouter this covers only the fallback path — see the failing-input theorem below. -/
theorem providerTokensNeverExceedCeiling
    (costFn : APIProvider → Nat → Nat → Nat) (tokenLimit : Nat) (p : APIProvider)
    (tin tout : Nat) (s : UsageSummary) (hl : 0 < tokenLimit) :
    (p ∈ primaryTokenUpdateList →
      (trackUsagePrimary costFn tokenLimit p tin tout s).tokens p ≤ tokenLimit ∧
      (tokenLimit < s.tokens p + (tin + tout) →
        (trackUsagePrimary costFn tokenLimit p tin tout s).tokens p = tokenLimit)) ∧
    (p ∈ fallbackTokenUpdateList →
      (trackUsageFallback costFn tokenLimit p tin tout s).tokens p ≤ tokenLimit ∧
      (tokenLimit < s.tokens p + (tin + tout) →
        (trackUsageFallback costFn tokenLimit p tin tout s).tokens p = tokenLimit)) ∧
    (∀ tokenList : List APIProvider, p ∈ tokenList → ∀ us : List (Nat × Nat), us ≠ [] →
      (recordCalls tokenList costFn tokenLimit p us s).tokens p ≤ tokenLimit) := by
  refine ⟨fun hp => ⟨?_, fun hover => ?_⟩, fun hp => ⟨?_, fun hover => ?_⟩, ?_⟩
  · exact trackUsage_tokens_le _ costFn tokenLimit p tin tout s hl hp
  · rw [show trackUsagePrimary = trackUsage primaryTokenUpdateList from rfl,
      trackUsage_tokens_self _ costFn tokenLimit p tin tout s hp]
    simp [hl, hover]
  · exact trackUsage_tokens_le _ costFn tokenLimit p tin tout s hl hp
  · rw [show trackUsageFallback = trackUsage fallbackTokenUpdateList from rfl,
      trackUsage_tokens_self _ costFn tokenLimit p tin tout s hp]
    simp [hl, hover]
  · intro tokenList hp us hne
    exact recordCalls_tokens_le tokenList costFn tokenLimit p hl hp us hne s

theorem providerTokensNeverExceedCeiling_example :
    (trackUsagePrimary costFn0 1000 .mistral 65 35 s980).tokens .mistral = 1000 :=
  ((providerTokensNeverExceedCeiling costFn0 1000 .mistral 65 35 s980 (by decide)).1
    (by decide)).2 (by decide)

/-- C1, evaluated at the failing input: ceiling 1000, prior openrouter usage 980 tokens,
actual total 100 (input estimate 65, output estimate 35), so the projection 1080 exceeds
the ceiling. The claim requires the written value to be clamped to exactly the ceiling in
the primary-call accounting path as well, but for openrouter the primary path performs no
token write at all (`APIProvider.openrouter` is missing from the line 436 token-update
list, the same slip recorded for C4): the stored counter stays 980 instead of becoming
1000. The identical step in the fallback path, and a provider the primary list does
contain (mistral), both clamp to exactly 1000 as the claim demands. -/
theorem openrouterPrimaryClampMissing :
    (trackUsagePrimary costFn0 1000 .openrouter 65 35 sOR980).tokens .openrouter = 980 ∧
    ¬ ((trackUsagePrimary costFn0 1000 .openrouter 65 35 sOR980).tokens .openrouter
        = 1000) ∧
    (trackUsageFallback costFn0 1000 .openrouter 65 35 sOR980).tokens .openrouter
      = 1000 ∧
    (trackUsagePrimary costFn0 1000 .mistral 65 35 s980).tokens .mistral = 1000 := by
  decide

/-- C2 counterexample: ceiling 1000, prior mistral usage 980 tokens, actual total 100
(input 65, output 35). The per-provider counter clamps to 1000, but the aggregate
`total_tokens` gains only the post-clamp tracked total 20 (reaching 1000), not the
pre-clamp actual 100 the claim states (which would reach 1080). -/
theorem aggregateTotalsPreclamp_counterexample :
    (trackUsagePrimary costFn0 1000 .mistral 65 35 s980).tokens .mistral = 1000 ∧
    (trackUsagePrimary costFn0 1000 .mistral 65 35 s980).total_tokens = 1000 ∧
    ¬ ((trackUsagePrimary costFn0 1000 .mistral 65 35 s980).total_tokens =
        s980.total_tokens + (65 + 35)) := by
  decide

/-- C2 amended: for a successful call whose per-provider token write is clamped at the
ceiling, `total_calls` gains one and `total_tokens` gains the post-clamp tracked total
(ceiling minus the old per-provider counter, floored at zero), not the pre-clamp actual
total; the per-provider counter is written as exactly the ceiling. This holds for any
token-update list containing the provider, hence for both accounting paths. -/
theorem aggregateTotalsUsePostclampTracked
    (tokenList : List APIProvider) (costFn : APIProvider → Nat → Nat → Nat)
    (tokenLimit : Nat) (p : APIProvider) (tin tout : Nat) (s : UsageSummary)
    (hp : p ∈ tokenList) (hl : 0 < tokenLimit)
    (hover : tokenLimit < s.tokens p + (tin + tout)) :
    (trackUsage tokenList costFn tokenLimit p tin tout s).total_calls =
      s.total_calls + 1 ∧
    (trackUsage tokenList costFn tokenLimit p tin tout s).total_tokens =
      s.total_tokens + (tokenLimit - s.tokens p) ∧
    (trackUsage tokenList costFn tokenLimit p tin tout s).tokens p = tokenLimit := by
  unfold trackUsage
  simp [hp, hl, hover]

theorem aggregateTotalsUsePostclampTracked_witness :
    (trackUsagePrimary costFn0 1000 .mistral 65 35 s980).total_calls =
      s980.total_calls + 1 ∧
    (trackUsagePrimary costFn0 1000 .mistral 65 35 s980).total_tokens =
      s980.total_tokens + (1000 - s980.tokens .mistral) ∧
    (trackUsagePrimary costFn0 1000 .mistral 65 35 s980).tokens .mistral = 1000 :=
  aggregateTotalsUsePostclampTracked primaryTokenUpdateList costFn0 1000 .mistral 65 35
    s980 (by decide) (by decide) (by decide)

/-- C3 counterexample: at input estimate `estTokens 4616 = 6000` and configured maximum
output 4000, the checked worst-case total is 6000 + 4000 = 10000, not the claimed
6000 + max 4000 9000 = 15000: when 1.5 times the input estimate exceeds the configured
maximum, the larger value is NOT used. -/
theorem worstCaseMax_counterexample :
    ¬ (worstCaseTotal (estTokens 4616) 4000 = worstCaseTotalSpec (estTokens 4616) 4000) := by
  decide

/-- C3 amended: the pre-flight worst-case total is the input estimate plus the configured
maximum output tokens whenever that maximum is nonzero, even when 1.5 times the input
estimate is larger; the 1.5 factor applies only when the configured maximum is zero. In
`llm_text_gen` the maximum is the constant 4000, so the checked total is always
input + 4000. -/
theorem worstCaseTotalUsesConfiguredMax (i maxT : Nat) :
    (maxT ≠ 0 → worstCaseTotal i maxT = i + maxT) ∧
    worstCaseTotal i 0 = i + i * 3 / 2 ∧
    worstCaseTotal i maxTokensDefault = i + 4000 := by
  refine ⟨fun h => ?_, ?_, ?_⟩
  · simp [worstCaseTotal, h]
  · simp [worstCaseTotal]
  · simp [worstCaseTotal, maxTokensDefault]

theorem worstCaseTotalUsesConfiguredMax_witness :
    worstCaseTotal 6000 4000 = 6000 + 4000 :=
  (worstCaseTotalUsesConfiguredMax 6000 4000).1 (by decide)

/-- C4, evaluated at the failing input (a successful primary-path openrouter response,
input estimate 65, output estimate 35, prior counters zero): the primary accounting path
counts the call and adds the full 100 tokens to `total_tokens`, yet leaves the openrouter
token counter unwritten, because `APIProvider.openrouter` is missing from the primary
token-update list (line 436), while the fallback path (line 805) does write it. -/
theorem openrouterTokensUnwrittenOnPrimaryPath :
    (trackUsagePrimary costFn0 1000 .openrouter 65 35 zeroSummary).tokens .openrouter = 0 ∧
    (trackUsagePrimary costFn0 1000 .openrouter 65 35 zeroSummary).calls .openrouter = 1 ∧
    (trackUsagePrimary costFn0 1000 .openrouter 65 35 zeroSummary).total_tokens = 100 ∧
    (trackUsageFallback costFn0 1000 .openrouter 65 35 zeroSummary).tokens .openrouter
      = 100 := by
  decide

/-- C5: a request that the pre-flight check denies is rejected before any provider
invocation: the run returns the structured denial payload carrying the message, the
provider name and the usage snapshot, the invocation list is empty and the ledger row is
returned unchanged; the denial constructor is distinct from the transport and
configuration failure constructors, so it is distinguishable upward. -/
theorem quotaDenialBeforeProviderInvocation
    (env : GenEnv) (fault : Bool) (s : UsageSummary) (gp : Provider)
    (hc : chooseProvider env.envProvider
        (availableProviders env.hasGoogle env.hasHF env.hasOR) = some gp)
    (hu : env.hasUserId = true)
    (hd : (preflight env s (providerEnum gp)).1 = false) :
    llm_text_gen env fault s =
      ⟨.quotaDenied ⟨msgLimitExceeded, actualProviderName gp,
        (preflight env s (providerEnum gp)).2⟩, [], s⟩ ∧
    (∀ d : ErrorDetail, GenResult.quotaDenied d ≠ .allProvidersFailed ∧
      ∀ m, GenResult.quotaDenied d ≠ .configError m) := by
  constructor
  · simp [llm_text_gen, Option.elim, hc, hu, hd]
  · intro d
    exact ⟨by simp, fun m => by simp⟩

theorem quotaDenialBeforeProviderInvocation_witness :
    llm_text_gen envDeny false zeroSummary =
      ⟨.quotaDenied ⟨msgLimitExceeded, actualProviderName .google,
        (preflight envDeny zeroSummary (providerEnum .google)).2⟩, [], zeroSummary⟩ ∧
    (∀ d : ErrorDetail, GenResult.quotaDenied d ≠ .allProvidersFailed ∧
      ∀ m, GenResult.quotaDenied d ≠ .configError m) :=
  quotaDenialBeforeProviderInvocation envDeny false zeroSummary .google (by decide) rfl
    (by decide)

/-- C6: every run invokes at most two provider backends; after a primary failure the
single alternate is the head of the fixed priority order google, openrouter, huggingface
restricted to credentialed providers other than the failed one, it is credentialed and
distinct from the failed provider, and it is tried exactly once: if it also fails, or if
no alternate exists, the run ends with the all-providers-failed error and no further
provider is invoked. -/
theorem atMostTwoProviderInvocations (env : GenEnv) (fault : Bool) (s : UsageSummary) :
    (llm_text_gen env fault s).invoked.length ≤ 2 ∧
    (∀ gp, chooseProvider env.envProvider
        (availableProviders env.hasGoogle env.hasHF env.hasOR) = some gp →
      env.hasUserId = true →
      (preflight env s (providerEnum gp)).1 = true →
      env.callOk gp = false →
      ((fallbackChoice (availableProviders env.hasGoogle env.hasHF env.hasOR) gp = none →
          llm_text_gen env fault s = ⟨.allProvidersFailed, [gp], s⟩) ∧
        (∀ fb, fallbackChoice (availableProviders env.hasGoogle env.hasHF env.hasOR) gp
            = some fb →
          fb ∈ availableProviders env.hasGoogle env.hasHF env.hasOR ∧ fb ≠ gp ∧
          (env.callOk fb = false →
            llm_text_gen env fault s = ⟨.allProvidersFailed, [gp, fb], s⟩) ∧
          (env.callOk fb = true →
            (llm_text_gen env fault s).invoked = [gp, fb] ∧
            (llm_text_gen env fault s).result = .success fb (env.respWords fb))))) := by
  constructor
  · rcases hc : chooseProvider env.envProvider
        (availableProviders env.hasGoogle env.hasHF env.hasOR) with _ | gp
    · simp [llm_text_gen, Option.elim, hc]
    · by_cases hu : env.hasUserId = false
      · simp [llm_text_gen, Option.elim, hc, hu]
      · by_cases hq : (preflight env s (providerEnum gp)).1 = false
        · simp [llm_text_gen, Option.elim, hc, hu, hq]
        · by_cases hp : env.callOk gp = true
          · simp [llm_text_gen, Option.elim, hc, hu, hq, hp]
          · rcases hf : fallbackChoice
                (availableProviders env.hasGoogle env.hasHF env.hasOR) gp with _ | fb
            · simp [llm_text_gen, Option.elim, hc, hu, hq, hp, hf]
            · by_cases hok : env.callOk fb = true
              · simp [llm_text_gen, Option.elim, hc, hu, hq, hp, hf, hok]
              · simp [llm_text_gen, Option.elim, hc, hu, hq, hp, hf, hok]
  · intro gp hc hu hq hp
    refine ⟨fun hf => ?_, fun fb hf => ?_⟩
    · simp [llm_text_gen, Option.elim, hc, hu, hq, hp, hf]
    · have hmem := fallbackChoice_mem _ _ _ hf
      refine ⟨hmem.1, hmem.2, fun hok => ?_, fun hok => ?_⟩
      · simp [llm_text_gen, Option.elim, hc, hu, hq, hp, hf, hok]
      · constructor <;> simp [llm_text_gen, Option.elim, hc, hu, hq, hp, hf, hok]

theorem atMostTwoProviderInvocations_witness :
    (llm_text_gen envBothFail false zeroSummary).invoked.length ≤ 2 ∧
    llm_text_gen envBothFail false zeroSummary =
      ⟨.allProvidersFailed, [.google, .openrouter], zeroSummary⟩ := by
  have h := atMostTwoProviderInvocations envBothFail false zeroSummary
  have h2 := h.2 .google (by decide) rfl (by decide) rfl
  exact ⟨h.1, (h2.2 .openrouter (by decide)).2.2.1 rfl⟩

/-- C7: the accounting fault switch never changes the returned result or the invocation
list, and a successful backend call (primary or fallback) yields the generated response
even when the accounting block faults: a ledger fault is never propagated as a request
failure. -/
theorem ledgerFaultNeverBlocksResult (env : GenEnv) (fault : Bool) (s : UsageSummary) :
    ((llm_text_gen env fault s).result = (llm_text_gen env false s).result ∧
      (llm_text_gen env fault s).invoked = (llm_text_gen env false s).invoked) ∧
    (∀ gp, chooseProvider env.envProvider
        (availableProviders env.hasGoogle env.hasHF env.hasOR) = some gp →
      env.hasUserId = true →
      (preflight env s (providerEnum gp)).1 = true →
      env.callOk gp = true →
      (llm_text_gen env fault s).result = .success gp (env.respWords gp)) ∧
    (∀ gp fb, chooseProvider env.envProvider
        (availableProviders env.hasGoogle env.hasHF env.hasOR) = some gp →
      env.hasUserId = true →
      (preflight env s (providerEnum gp)).1 = true →
      env.callOk gp = false →
      fallbackChoice (availableProviders env.hasGoogle env.hasHF env.hasOR) gp = some fb →
      env.callOk fb = true →
      (llm_text_gen env fault s).result = .success fb (env.respWords fb)) := by
  refine ⟨?_, fun gp hc hu hq hp => ?_, fun gp fb hc hu hq hp hf hok => ?_⟩
  · rcases hc : chooseProvider env.envProvider
        (availableProviders env.hasGoogle env.hasHF env.hasOR) with _ | gp
    · simp [llm_text_gen, Option.elim, hc]
    · by_cases hu : env.hasUserId = false
      · simp [llm_text_gen, Option.elim, hc, hu]
      · by_cases hq : (preflight env s (providerEnum gp)).1 = false
        · simp [llm_text_gen, Option.elim, hc, hu, hq]
        · by_cases hp : env.callOk gp = true
          · simp [llm_text_gen, Option.elim, hc, hu, hq, hp]
          · rcases hf : fallbackChoice
                (availableProviders env.hasGoogle env.hasHF env.hasOR) gp with _ | fb
            · simp [llm_text_gen, Option.elim, hc, hu, hq, hp, hf]
            · by_cases hok : env.callOk fb = true
              · simp [llm_text_gen, Option.elim, hc, hu, hq, hp, hf, hok]
              · simp [llm_text_gen, Option.elim, hc, hu, hq, hp, hf, hok]
  · simp [llm_text_gen, Option.elim, hc, hu, hq, hp]
  · simp [llm_text_gen, Option.elim, hc, hu, hq, hp, hf, hok]

theorem ledgerFaultNeverBlocksResult_witness :
    (llm_text_gen envHF true zeroSummary).result =
      (llm_text_gen envHF false zeroSummary).result ∧
    (llm_text_gen envHF true zeroSummary).result = .success .huggingface 30 := by
  have h := ledgerFaultNeverBlocksResult envHF true zeroSummary
  exact ⟨h.1.1, h.2.1 .huggingface (by decide) rfl (by decide) rfl⟩

/-- C8: with no credentialed provider at all, or with no user identity supplied, the run
fails immediately with the corresponding configuration error: no provider backend is
invoked and the ledger row is returned untouched, before any quota check can take
effect. -/
theorem configErrorBeforeAnyWork (env : GenEnv) (fault : Bool) (s : UsageSummary) :
    (availableProviders env.hasGoogle env.hasHF env.hasOR = [] →
      llm_text_gen env fault s = ⟨.configError msgNoKeys, [], s⟩) ∧
    (env.hasUserId = false →
      ∀ gp, chooseProvider env.envProvider
          (availableProviders env.hasGoogle env.hasHF env.hasOR) = some gp →
        llm_text_gen env fault s = ⟨.configError msgNoUser, [], s⟩) := by
  constructor
  · intro hnil
    simp [llm_text_gen, Option.elim, hnil, chooseProvider_nil]
  · intro hu gp hc
    simp [llm_text_gen, Option.elim, hc, hu]

theorem configErrorBeforeAnyWork_witness :
    llm_text_gen envNoKeys false zeroSummary =
      ⟨.configError msgNoKeys, [], zeroSummary⟩ :=
  (configErrorBeforeAnyWork envNoKeys false zeroSummary).1 rfl

/-- C9: after a primary-provider failure followed by a successful fallback call, the
ledger row after the run is exactly the fallback-path accounting update attributed to the
fallback provider enum: every column (calls, tokens, cost) of every other provider enum is
unchanged — in particular those of the primary provider, whose enum is distinct — and the
fallback call counter gains one, as does the aggregate call total. -/
theorem fallbackUsageAttributedToFallbackOnly
    (env : GenEnv) (s : UsageSummary) (gp fb : Provider)
    (hc : chooseProvider env.envProvider
        (availableProviders env.hasGoogle env.hasHF env.hasOR) = some gp)
    (hu : env.hasUserId = true)
    (hq : (preflight env s (providerEnum gp)).1 = true)
    (hpf : env.callOk gp = false)
    (hfb : fallbackChoice (availableProviders env.hasGoogle env.hasHF env.hasOR) gp
      = some fb)
    (hok : env.callOk fb = true) :
    (llm_text_gen env false s).ledger =
      trackUsageFallback env.costFn (env.tokenLimit (providerEnum fb)) (providerEnum fb)
        (estTokens env.promptWords) (estTokens (env.respWords fb)) s ∧
    (∀ q, q ≠ providerEnum fb →
      (llm_text_gen env false s).ledger.calls q = s.calls q ∧
      (llm_text_gen env false s).ledger.tokens q = s.tokens q ∧
      (llm_text_gen env false s).ledger.cost q = s.cost q) ∧
    providerEnum gp ≠ providerEnum fb ∧
    (llm_text_gen env false s).ledger.calls (providerEnum fb)
      = s.calls (providerEnum fb) + 1 ∧
    (llm_text_gen env false s).ledger.total_calls = s.total_calls + 1 := by
  have hq2 : ¬ ((preflight env s (providerEnum gp)).1 = false) := by simp [hq]
  have hpf2 : ¬ (env.callOk gp = true) := by simp [hpf]
  have hrun : (llm_text_gen env false s).ledger =
      trackUsageFallback env.costFn (env.tokenLimit (providerEnum fb)) (providerEnum fb)
        (estTokens env.promptWords) (estTokens (env.respWords fb)) s := by
    simp [llm_text_gen, Option.elim, hc, hu, hq2, hpf2, hfb, hok, trackOrFault]
  have hne : fb ≠ gp := (fallbackChoice_mem _ _ _ hfb).2
  refine ⟨hrun, fun q hqne => ?_, fun h => hne (providerEnum_injective fb gp h.symm), ?_, ?_⟩
  · rw [hrun]
    exact trackUsage_frame fallbackTokenUpdateList env.costFn
      (env.tokenLimit (providerEnum fb)) (providerEnum fb) (estTokens env.promptWords)
      (estTokens (env.respWords fb)) s q hqne
  · rw [hrun]
    simp [trackUsageFallback, trackUsage]
  · rw [hrun]
    simp [trackUsageFallback, trackUsage]

theorem fallbackUsageAttributedToFallbackOnly_witness :
    (llm_text_gen envFallbackOk false zeroSummary).ledger.calls .openrouter = 0 + 1 ∧
    (llm_text_gen envFallbackOk false zeroSummary).ledger.calls .gemini = 0 ∧
    (llm_text_gen envFallbackOk false zeroSummary).ledger.tokens .gemini = 0 := by
  have h := fallbackUsageAttributedToFallbackOnly envFallbackOk zeroSummary .google
    .openrouter (by decide) rfl (by decide) rfl (by decide) rfl
  exact ⟨h.2.2.2.1, (h.2.1 .gemini (by decide)).1, (h.2.1 .gemini (by decide)).2.1⟩

/-- C10: a request served by the huggingface provider operates entirely on the mistral
counters. The enum mapping sends huggingface to MISTRAL, so the pre-flight check reads the
mistral token and call columns, a denial carries the mistral usage snapshot (under the
actual provider name huggingface), and a successful primary call runs the accounting on
the mistral columns — every other enum column is untouched. The `APIProvider` enum
(mirroring the column whitelist of the source) has no huggingface-named member, so no
huggingface-named counter exists to be touched. -/
theorem huggingfaceUsesMistralCounters
    (env : GenEnv) (fault : Bool) (s : UsageSummary)
    (hc : chooseProvider env.envProvider
        (availableProviders env.hasGoogle env.hasHF env.hasOR) = some .huggingface)
    (hu : env.hasUserId = true) :
    providerEnum .huggingface = .mistral ∧
    preflight env s (providerEnum .huggingface) =
      check_usage_limits (env.tokenLimit .mistral) (env.callLimit .mistral)
        (s.tokens .mistral) (s.calls .mistral)
        (worstCaseTotal (estTokens env.promptWords) maxTokensDefault) ∧
    ((preflight env s .mistral).1 = false →
      llm_text_gen env fault s =
        ⟨.quotaDenied ⟨msgLimitExceeded, actualProviderName .huggingface,
          (preflight env s .mistral).2⟩, [], s⟩) ∧
    ((preflight env s .mistral).1 = true → env.callOk .huggingface = true →
      (llm_text_gen env false s).ledger =
        trackUsagePrimary env.costFn (env.tokenLimit .mistral) .mistral
          (estTokens env.promptWords) (estTokens (env.respWords .huggingface)) s ∧
      (llm_text_gen env false s).ledger.calls .mistral = s.calls .mistral + 1 ∧
      (∀ q, q ≠ .mistral →
        (llm_text_gen env false s).ledger.calls q = s.calls q ∧
        (llm_text_gen env false s).ledger.tokens q = s.tokens q ∧
        (llm_text_gen env false s).ledger.cost q = s.cost q)) := by
  refine ⟨rfl, rfl, fun hd => ?_, fun hq hok => ?_⟩
  · simp [llm_text_gen, Option.elim, hc, hu, providerEnum, hd, actualProviderName]
  · have hq2 : ¬ ((preflight env s APIProvider.mistral).1 = false) := by simp [hq]
    have hrun : (llm_text_gen env false s).ledger =
        trackUsagePrimary env.costFn (env.tokenLimit .mistral) .mistral
          (estTokens env.promptWords) (estTokens (env.respWords .huggingface)) s := by
      simp [llm_text_gen, Option.elim, hc, hu, hq2, hok, trackOrFault, providerEnum]
    refine ⟨hrun, ?_, fun q hqne => ?_⟩
    · rw [hrun]
      simp [trackUsagePrimary, trackUsage]
    · rw [hrun]
      exact trackUsage_frame primaryTokenUpdateList env.costFn (env.tokenLimit .mistral)
        .mistral (estTokens env.promptWords) (estTokens (env.respWords .huggingface)) s
        q hqne

theorem huggingfaceUsesMistralCounters_witness :
    providerEnum .huggingface = .mistral ∧
    (llm_text_gen envHF false zeroSummary).ledger.calls .mistral = 0 + 1 ∧
    (llm_text_gen envHF false zeroSummary).ledger.calls .gemini = 0 ∧
    (llm_text_gen envHF false zeroSummary).ledger.tokens .mistral = 13 + 39 := by
  have h := huggingfaceUsesMistralCounters envHF false zeroSummary (by decide) rfl
  have h4 := h.2.2.2 (by decide) rfl
  refine ⟨h.1, h4.2.1, (h4.2.2 .gemini (by decide)).1, ?_⟩
  rw [h4.1]
  decide

end ALwrity
